import Mathlib

/-!
Shallow embedding of src/src/openrct2/actions/RideEntranceExitPlaceAction.cpp.

The command reads and mutates shared world state through a set of narrow
collaborator interfaces (ride lookup, world storage capacity, land ownership,
spatial clearance, per-station bookkeeping, footpath and animation hooks).
Those collaborators are not part of src/, so they are modelled as oracle
fields of an explicit `World` record, and every mutation the command itself
performs is written out as an explicit update of that record.  The two
out-of-band output slots of the clearance collaborator (the ground-flags and
the error-text/format-args globals) are modelled as explicit return values of
the oracle, exactly as the specification describes the interface
(input: volume, exclusion mask, permission flags; output: verdict, cost,
message and arguments).
-/

set_option autoImplicit false

/-- World coordinates of a point, as in CoordsXY. -/
structure CoordsXY where
  x : Int
  y : Int
deriving DecidableEq

/-- World coordinates with a height, as in CoordsXYZ. -/
structure CoordsXYZ where
  x : Int
  y : Int
  z : Int
deriving DecidableEq

/-- Tile coordinates with height and direction, as in TileCoordsXYZD.
A null location is represented by Option.none at its use sites. -/
structure TileCoordsXYZD where
  x : Int
  y : Int
  z : Int
  direction : Nat
deriving DecidableEq

/-- Size of one tile in world coordinates (COORDS_XY_STEP). -/
def COORDS_XY_STEP : Int := 32

/-- Size of one height step in world coordinates (COORDS_Z_STEP). -/
def COORDS_Z_STEP : Int := 8

/-- Round a coordinate down to the start of its tile (CoordsXY.ToTileStart). -/
def CoordsXY.ToTileStart (c : CoordsXY) : CoordsXY :=
  ⟨c.x - c.x % COORDS_XY_STEP, c.y - c.y % COORDS_XY_STEP⟩

/-- Centre of the tile containing a coordinate (CoordsXY.ToTileCentre). -/
def CoordsXY.ToTileCentre (c : CoordsXY) : CoordsXY :=
  ⟨c.ToTileStart.x + 16, c.ToTileStart.y + 16⟩

/-- Pair a two dimensional coordinate with a height. -/
def CoordsXY.withZ (c : CoordsXY) (z : Int) : CoordsXYZ := ⟨c.x, c.y, z⟩

/-- Conversion of a tile coordinate back to world coordinates
(TileCoordsXYZD.ToCoordsXY, used for the nested removal target). -/
def TileCoordsXYZD.ToCoordsXY (t : TileCoordsXYZD) : CoordsXY :=
  ⟨t.x * COORDS_XY_STEP, t.y * COORDS_XY_STEP⟩

/-- Outcome statuses of a game action (GameActions::Status, restricted to the
vocabulary surfaced by this command and its nested sub-command). -/
inductive Status where
  | Ok
  | InvalidParameters
  | Disallowed
  | NotOwned
  | NotClosed
  | NoClearance
  | NoFreeElements
deriving DecidableEq

/-- Expenditure categories used by this command (ExpenditureType). Count is
the default of a freshly constructed Result. -/
inductive ExpenditureType where
  | Count
  | RideConstruction
deriving DecidableEq

/-- Outcome record of a Query or Execute call (GameActions::Result).
String ids are modelled as Nat; the optional cost field starts unset. -/
structure Result where
  Error : Status
  ErrorTitle : Option Nat
  ErrorMessage : Option Nat
  ErrorMessageArgs : Option Nat
  Position : Option CoordsXYZ
  Expenditure : ExpenditureType
  Cost : Option Int
deriving DecidableEq

/-- Freshly constructed empty result (MakeResult() with no arguments). -/
def MakeResult : Result :=
  { Error := Status.Ok, ErrorTitle := none, ErrorMessage := none,
    ErrorMessageArgs := none, Position := none,
    Expenditure := ExpenditureType.Count, Cost := none }

/-- MakeResult(status, errorTitle). -/
def MakeResultError (st : Status) (title : Nat) : Result :=
  { MakeResult with Error := st, ErrorTitle := some title }

/-- MakeResult(status, errorTitle, errorMessage). -/
def MakeResultErrorMessage (st : Status) (title message : Nat) : Result :=
  { MakeResultError st title with ErrorMessage := some message }

/-- MakeResult(status, errorTitle, errorMessage, args). -/
def MakeResultErrorMessageArgs (st : Status) (title message args : Nat) : Result :=
  { MakeResultErrorMessage st title message with ErrorMessageArgs := some args }

/-- Ride lifecycle statuses relevant to this command (RideStatus). -/
inductive RideStatus where
  | Closed
  | Open
  | Testing
  | Simulating
deriving DecidableEq

/-- Per-station bookkeeping of a ride (RideStation). Entrance and exit are
nullable tile locations; GetBaseZ derives the base height from Height. -/
structure RideStation where
  Entrance : Option TileCoordsXYZD
  Exit : Option TileCoordsXYZD
  Height : Int
  LastPeepInQueue : Nat
  QueueLength : Nat
deriving DecidableEq

/-- Base height of a station in world coordinates (RideStation::GetBaseZ). -/
def RideStation.GetBaseZ (s : RideStation) : Int := s.Height * COORDS_Z_STEP

/-- Station used when an index falls outside the stations array; the C++
array access would read adjacent memory there (see the safety claim). -/
def defaultStation : RideStation :=
  { Entrance := none, Exit := none, Height := 0, LastPeepInQueue := 0, QueueLength := 0 }

/-- Ride record: status, lifecycle flag bitmask and the stations array. -/
structure Ride where
  status : RideStatus
  lifecycle_flags : Nat
  stations : List RideStation
deriving DecidableEq

/-- Unchecked access to a station entry (ride->stations[i]). -/
def Ride.getStation (r : Ride) (i : Nat) : RideStation :=
  r.stations.getD i defaultStation

/-- Update of a station entry in place; out of range indices leave the
array unchanged. -/
def Ride.setStation (r : Ride) (i : Nat) (f : RideStation → RideStation) : Ride :=
  { r with stations := r.stations.set i (f (r.getStation i)) }

/-- Entrance or exit world element as inserted by Execute (EntranceElement). -/
structure EntranceElement where
  loc : CoordsXY
  baseZ : Int
  clearanceZ : Int
  direction : Nat
  entranceType : Nat
  stationIndex : Nat
  rideIndex : Nat
  ghost : Bool
deriving DecidableEq

/-- Verdict of the spatial clearance collaborator: success flag, computed
cost, ground flags of the surface found, and the failure message pair the
collaborator leaves in the shared slots (map_can_construct_with_clear_at). -/
structure ClearanceResult where
  ok : Bool
  cost : Int
  groundFlags : Nat
  errorText : Nat
  formatArgs : Nat
deriving DecidableEq

/-- Parameters of the nested removal sub-command
(RideEntranceExitRemoveAction constructed by the placement command,
including the flags copied from the parent with SetFlags(GetFlags())). -/
structure RideEntranceExitRemoveAction where
  loc : CoordsXY
  rideIndex : Nat
  stationNum : Nat
  isExit : Bool
  flags : Nat
deriving DecidableEq

/-- Explicit world state: the ride table, the oracle interfaces of all
external collaborators, the entrance element storage, and logs of every
side effect the command can request from a collaborator. -/
structure World where
  rides : Nat → Option Ride
  capacityOK : CoordsXY → Bool
  cheatsSandboxMode : Bool
  locationValid : CoordsXY → Bool
  locationOwned : CoordsXY → Int → Bool
  canConstruct : CoordsXY → Int → Int → Nat → ClearanceResult
  tileElementHeight : CoordsXY → Int
  removeQueryResult : RideEntranceExitRemoveAction → Result
  removeExecResult : RideEntranceExitRemoveAction → Result
  elements : List EntranceElement
  clearedForConstruction : List Nat
  peepsRemoved : List Nat
  litterRemoved : List (CoordsXY × Int)
  wallsRemoved : List (CoordsXY × Int)
  animations : List (Nat × CoordsXY × Int)
  hedgesRemoved : List CoordsXY
  queueChainResets : Nat
  footpathConnected : List (CoordsXY × Nat)
  queueChainUpdates : Nat
  invalidatedTiles : List CoordsXY

/-- Number of world elements in storage, the observable the specification
names for the purity property. -/
def World.elementCount (w : World) : Nat := w.elements.length

/-- Update the ride stored at an index. -/
def World.updateRide (w : World) (i : Nat) (f : Ride → Ride) : World :=
  { w with rides := fun j => if j = i then (w.rides j).map f else w.rides j }

/-- Ride lookup by id (get_ride). -/
def get_ride (w : World) (i : Nat) : Option Ride := w.rides i

/-- Entrance location of a station (ride_get_entrance_location). -/
def ride_get_entrance_location (r : Ride) (i : Nat) : Option TileCoordsXYZD :=
  (r.getStation i).Entrance

/-- Exit location of a station (ride_get_exit_location). -/
def ride_get_exit_location (r : Ride) (i : Nat) : Option TileCoordsXYZD :=
  (r.getStation i).Exit

/-- Modelled from the spec: world storage capacity check of the target tile
(MapCheckCapacityAndReorganise); its reorganisation touches only the internal
storage layout, which the specification treats as unobservable. -/
def MapCheckCapacityAndReorganise (w : World) (c : CoordsXY) : Bool :=
  w.capacityOK c

/-- Modelled from the spec: location bounds check (LocationValid). -/
def LocationValid (w : World) (c : CoordsXY) : Bool := w.locationValid c

/-- Modelled from the spec: land ownership query (map_is_location_owned). -/
def map_is_location_owned (w : World) (c : CoordsXY) (z : Int) : Bool :=
  w.locationOwned c z

/-- Modelled from the spec: spatial clearance collaborator
(map_can_construct_with_clear_at); the verdict, the cost and the shared
message slots are returned explicitly. -/
def map_can_construct_with_clear_at (w : World) (c : CoordsXY) (z clearz : Int) (flags : Nat) : ClearanceResult :=
  w.canConstruct c z clearz flags

/-- Modelled from the spec: terrain surface height query (tile_element_height). -/
def tile_element_height (w : World) (c : CoordsXY) : Int := w.tileElementHeight c

/-- Maximum number of stations of a ride (MAX_STATIONS); the bound of the
stations array, external to src/. -/
def MAX_STATIONS : Nat := 4

/-- Null sprite index (SPRITE_INDEX_NULL). -/
def SPRITE_INDEX_NULL : Nat := 65535

/-- Entrance kind tag (ENTRANCE_TYPE_RIDE_ENTRANCE). -/
def ENTRANCE_TYPE_RIDE_ENTRANCE : Nat := 0

/-- Exit kind tag (ENTRANCE_TYPE_RIDE_EXIT). -/
def ENTRANCE_TYPE_RIDE_EXIT : Nat := 1

/-- Animation kind registered for a ride entrance (MAP_ANIMATION_TYPE_RIDE_ENTRANCE). -/
def MAP_ANIMATION_TYPE_RIDE_ENTRANCE : Nat := 10

/-- Ground flag bit marking an underwater surface (ELEMENT_IS_UNDERWATER). -/
def ELEMENT_IS_UNDERWATER : Nat := 2

/-- Lifecycle flag bit for indestructible track (RIDE_LIFECYCLE_INDESTRUCTIBLE_TRACK). -/
def RIDE_LIFECYCLE_INDESTRUCTIBLE_TRACK : Nat := 16384

/-- Permission flag: apply mode (GAME_COMMAND_FLAG_APPLY). -/
def GAME_COMMAND_FLAG_APPLY : Nat := 1

/-- Permission flag: allowed while the game is paused (GAME_COMMAND_FLAG_ALLOW_DURING_PAUSED). -/
def GAME_COMMAND_FLAG_ALLOW_DURING_PAUSED : Nat := 8

/-- Permission flag: ghost placement (GAME_COMMAND_FLAG_GHOST). -/
def GAME_COMMAND_FLAG_GHOST : Nat := 16

/-- Modelled from the spec: clearance offset above the base of an entrance
(RideEntranceHeight); the exact value is external to src/. -/
def RideEntranceHeight : Int := 96

/-- Modelled from the spec: clearance offset above the base of an exit
(RideExitHeight); the exact value is external to src/. -/
def RideExitHeight : Int := 64

/-- Modelled from the spec: fixed maximum entrance or exit height
(MaxRideEntranceOrExitHeight); the exact value is external to src/. -/
def MaxRideEntranceOrExitHeight : Int := 1952

/-- Distinct string ids drawn from the shared string catalog. -/
def STR_CANT_BUILD_MOVE_ENTRANCE_FOR_THIS_RIDE_ATTRACTION : Nat := 1

/-- Error title used when placing an exit. -/
def STR_CANT_BUILD_MOVE_EXIT_FOR_THIS_RIDE_ATTRACTION : Nat := 2

/-- Detail string: the ride must be closed first. -/
def STR_MUST_BE_CLOSED_FIRST : Nat := 3

/-- Detail string: modifying this station is not allowed. -/
def STR_NOT_ALLOWED_TO_MODIFY_STATION : Nat := 4

/-- Detail string: cannot build underwater. -/
def STR_RIDE_CANT_BUILD_THIS_UNDERWATER : Nat := 5

/-- Detail string: too high. -/
def STR_TOO_HIGH : Nat := 6

/-- Parameters of the placement command (the private fields of
RideEntranceExitPlaceAction together with the base-contract flag set). -/
structure RideEntranceExitPlaceAction where
  loc : CoordsXY
  direction : Nat
  rideIndex : Nat
  stationNum : Nat
  isExit : Bool
  flags : Nat
deriving DecidableEq

/-- Error title chosen by the exit flag (step 1 of both Query and Execute). -/
def errorTitleFor (isExit : Bool) : Nat :=
  if isExit then STR_CANT_BUILD_MOVE_EXIT_FOR_THIS_RIDE_ATTRACTION
  else STR_CANT_BUILD_MOVE_ENTRANCE_FOR_THIS_RIDE_ATTRACTION

/-- Error title of the placement command itself. -/
def RideEntranceExitPlaceAction.errorTitle (a : RideEntranceExitPlaceAction) : Nat :=
  errorTitleFor a.isExit

/-- Base height taken from the targeted station entry
(ride->stations[_stationNum].GetBaseZ()). -/
def RideEntranceExitPlaceAction.stationBaseZ (a : RideEntranceExitPlaceAction) (ride : Ride) : Int :=
  (ride.getStation a.stationNum).GetBaseZ

/-- Top of the clearance volume: base height plus the kind-specific offset. -/
def RideEntranceExitPlaceAction.clearHeight (a : RideEntranceExitPlaceAction) (z : Int) : Int :=
  z + (if a.isExit then RideExitHeight else RideEntranceHeight)

/-- Failure condition of the bounds and ownership check of Query
(!LocationValid(_loc) || (!gCheatsSandboxMode && !map_is_location_owned)). -/
def RideEntranceExitPlaceAction.ownershipFails (a : RideEntranceExitPlaceAction) (w : World) (z : Int) : Bool :=
  !(LocationValid w a.loc) || (!w.cheatsSandboxMode && !(map_is_location_owned w a.loc z))

/-- Location of the targeted station's element of the requested kind. -/
def RideEntranceExitPlaceAction.existingLocation (a : RideEntranceExitPlaceAction) (ride : Ride) : Option TileCoordsXYZD :=
  if a.isExit then ride_get_exit_location ride a.stationNum
  else ride_get_entrance_location ride a.stationNum

/-- Clearance verdict consulted by Query (permission flags as given). -/
def RideEntranceExitPlaceAction.queryClearance (a : RideEntranceExitPlaceAction) (w : World) (ride : Ride) : ClearanceResult :=
  map_can_construct_with_clear_at w a.loc (a.stationBaseZ ride)
    (a.clearHeight (a.stationBaseZ ride)) a.flags

/-- Clearance verdict consulted by Execute (apply flag added). -/
def RideEntranceExitPlaceAction.executeClearance (a : RideEntranceExitPlaceAction) (w : World) (ride : Ride) : ClearanceResult :=
  map_can_construct_with_clear_at w a.loc (a.stationBaseZ ride)
    (a.clearHeight (a.stationBaseZ ride)) (a.flags ||| GAME_COMMAND_FLAG_APPLY)

/-- Success result shared by Query and Execute: tile centre at the station
base height, ride-construction expenditure, no error and no cost. -/
def RideEntranceExitPlaceAction.successResult (a : RideEntranceExitPlaceAction) (z : Int) : Result :=
  { MakeResult with Position := some (a.loc.ToTileCentre.withZ z),
                    Expenditure := ExpenditureType.RideConstruction }

/-- Nested removal sub-command built by the placement command: same target,
same ride, same station, same kind, and the parent's permission flags
copied onto it with SetFlags(GetFlags()). -/
def RideEntranceExitPlaceAction.removeActionFor (a : RideEntranceExitPlaceAction) (t : TileCoordsXYZD) : RideEntranceExitRemoveAction :=
  { loc := t.ToCoordsXY, rideIndex := a.rideIndex, stationNum := a.stationNum,
    isExit := a.isExit, flags := a.flags }

/-- Nested dispatch of a sub-command's Query (GameActions::QueryNested);
the sub-command is independent, so its verdict is an oracle of the world.
A Query is a dry run and leaves the world unchanged. -/
def GameActions.QueryNested (w : World) (sub : RideEntranceExitRemoveAction) : Result :=
  w.removeQueryResult sub

/-- Modelled from the spec: the world mutation of a successful nested
RideEntranceExitRemoveAction (replace-not-duplicate semantics): the
entrance or exit elements of that station and kind leave storage, and the
station's location record of that kind becomes null. -/
def applyEntranceExitRemoval (w : World) (sub : RideEntranceExitRemoveAction) : World :=
  let w1 := { w with elements := w.elements.filter (fun e =>
      !(e.rideIndex == sub.rideIndex && e.stationIndex == sub.stationNum &&
        e.entranceType == (if sub.isExit then ENTRANCE_TYPE_RIDE_EXIT else ENTRANCE_TYPE_RIDE_ENTRANCE))) }
  w1.updateRide sub.rideIndex (fun r => r.setStation sub.stationNum (fun s =>
    if sub.isExit then { s with Exit := none } else { s with Entrance := none }))

/-- Nested dispatch of a sub-command's Execute (GameActions::ExecuteNested):
the sub-command's verdict is an oracle of the world; on success its world
mutation takes place, on failure the world is untouched. -/
def GameActions.ExecuteNested (w : World) (sub : RideEntranceExitRemoveAction) : Result × World :=
  let result := w.removeExecResult sub
  if result.Error = Status.Ok then (result, applyEntranceExitRemoval w sub) else (result, w)

/-- Steps 8 to 13 of the Query algorithm: station base height, location
bounds and ownership, clearance volume, underwater surface, maximum height,
and the success result (RideEntranceExitPlaceAction::Query, lines 95-123). -/
def RideEntranceExitPlaceAction.queryLocationChecks (a : RideEntranceExitPlaceAction) (w : World) (ride : Ride) (errorTitle : Nat) : Result :=
  let z := a.stationBaseZ ride
  if a.ownershipFails w z then
    MakeResultError Status.NotOwned errorTitle
  else
    let clear_z := a.clearHeight z
    let clearance := map_can_construct_with_clear_at w a.loc z clear_z a.flags
    if !clearance.ok then
      MakeResultErrorMessageArgs Status.NoClearance errorTitle clearance.errorText clearance.formatArgs
    else if clearance.groundFlags &&& ELEMENT_IS_UNDERWATER ≠ 0 then
      MakeResultErrorMessage Status.Disallowed errorTitle STR_RIDE_CANT_BUILD_THIS_UNDERWATER
    else if MaxRideEntranceOrExitHeight < z then
      MakeResultErrorMessage Status.Disallowed errorTitle STR_TOO_HIGH
    else
      a.successResult z

/-- Validation pass of the placement command
(RideEntranceExitPlaceAction::Query).  The world is threaded through and
returned so that the absence of mutation is a statement, not a convention. -/
def RideEntranceExitPlaceAction.Query (a : RideEntranceExitPlaceAction) (w : World) : Result × World :=
  let errorTitle := a.errorTitle
  if !(MapCheckCapacityAndReorganise w a.loc) then
    (MakeResultError Status.NoFreeElements errorTitle, w)
  else
    match get_ride w a.rideIndex with
    | none => (MakeResultError Status.InvalidParameters errorTitle, w)
    | some ride =>
      if MAX_STATIONS ≤ a.stationNum then
        (MakeResultError Status.InvalidParameters errorTitle, w)
      else if ride.status ≠ RideStatus.Closed ∧ ride.status ≠ RideStatus.Simulating then
        (MakeResultErrorMessage Status.NotClosed errorTitle STR_MUST_BE_CLOSED_FIRST, w)
      else if ride.lifecycle_flags &&& RIDE_LIFECYCLE_INDESTRUCTIBLE_TRACK ≠ 0 then
        (MakeResultErrorMessage Status.Disallowed errorTitle STR_NOT_ALLOWED_TO_MODIFY_STATION, w)
      else
        match a.existingLocation ride with
        | some t =>
          let result := GameActions.QueryNested w (a.removeActionFor t)
          if result.Error ≠ Status.Ok then (result, w)
          else (a.queryLocationChecks w ride errorTitle, w)
        | none => (a.queryLocationChecks w ride errorTitle, w)

/-- Tail of the Execute algorithm after the optional nested removal
(RideEntranceExitPlaceAction::Execute, lines 158-213): base height from the
station entry, litter and wall removal outside pause or ghost mode,
clearance in apply mode, insertion of the new element, station bookkeeping,
footpath and animation hooks, and redraw invalidation.  The ride argument is
the pointee of the C++ ride pointer, so it reflects any mutation the nested
removal made. -/
def RideEntranceExitPlaceAction.executeAfterRemoval (a : RideEntranceExitPlaceAction) (w : World) (ride : Ride) (errorTitle : Nat) : Result × World :=
  let z := a.stationBaseZ ride
  let w3 := if a.flags &&& GAME_COMMAND_FLAG_ALLOW_DURING_PAUSED = 0 ∧ a.flags &&& GAME_COMMAND_FLAG_GHOST = 0 then
      { w with litterRemoved := w.litterRemoved ++ [(a.loc, z)],
               wallsRemoved := w.wallsRemoved ++ [(a.loc, z)] }
    else w
  let clear_z := a.clearHeight z
  let clearance := map_can_construct_with_clear_at w3 a.loc z clear_z (a.flags ||| GAME_COMMAND_FLAG_APPLY)
  if !clearance.ok then
    (MakeResultErrorMessageArgs Status.NoClearance errorTitle clearance.errorText clearance.formatArgs, w3)
  else
    let res := a.successResult z
    let entranceElement : EntranceElement :=
      { loc := a.loc, baseZ := z, clearanceZ := clear_z,
        direction := a.direction &&& 3,
        entranceType := if a.isExit then ENTRANCE_TYPE_RIDE_EXIT else ENTRANCE_TYPE_RIDE_ENTRANCE,
        stationIndex := a.stationNum, rideIndex := a.rideIndex,
        ghost := a.flags &&& GAME_COMMAND_FLAG_GHOST != 0 }
    let w4 := { w3 with elements := w3.elements ++ [entranceElement] }
    let newLoc : TileCoordsXYZD := ⟨a.loc.x / COORDS_XY_STEP, a.loc.y / COORDS_XY_STEP,
                                    z / COORDS_Z_STEP, entranceElement.direction⟩
    let w5 :=
      if a.isExit then
        w4.updateRide a.rideIndex (fun r => r.setStation a.stationNum
          (fun s => { s with Exit := some newLoc }))
      else
        let w5a := w4.updateRide a.rideIndex (fun r => r.setStation a.stationNum
          (fun s => { s with Entrance := some newLoc,
                             LastPeepInQueue := SPRITE_INDEX_NULL, QueueLength := 0 }))
        { w5a with animations := w5a.animations ++ [(MAP_ANIMATION_TYPE_RIDE_ENTRANCE, a.loc, z)] }
    let w6 := { w5 with queueChainResets := w5.queueChainResets + 1 }
    let w7 := if a.flags &&& GAME_COMMAND_FLAG_GHOST = 0 then
        { w6 with hedgesRemoved := w6.hedgesRemoved ++ [a.loc] }
      else w6
    let w8 := { w7 with footpathConnected := w7.footpathConnected ++ [(a.loc, a.flags)],
                        queueChainUpdates := w7.queueChainUpdates + 1 }
    let w9 := { w8 with invalidatedTiles := w8.invalidatedTiles ++ [a.loc] }
    (res, w9)

/-- Apply pass of the placement command (RideEntranceExitPlaceAction::Execute).
After a successful nested removal the C++ ride pointer still aliases the
ride object the removal mutated, hence the re-read from the updated world. -/
def RideEntranceExitPlaceAction.Execute (a : RideEntranceExitPlaceAction) (w : World) : Result × World :=
  let errorTitle := a.errorTitle
  match get_ride w a.rideIndex with
  | none => (MakeResultError Status.InvalidParameters errorTitle, w)
  | some ride =>
    let w1 := if a.flags &&& GAME_COMMAND_FLAG_GHOST = 0 then
        { w with clearedForConstruction := w.clearedForConstruction ++ [a.rideIndex],
                 peepsRemoved := w.peepsRemoved ++ [a.rideIndex] }
      else w
    match a.existingLocation ride with
    | some t =>
      let sub := GameActions.ExecuteNested w1 (a.removeActionFor t)
      if sub.1.Error ≠ Status.Ok then (sub.1, sub.2)
      else
        let ride2 := (get_ride sub.2 a.rideIndex).getD ride
        a.executeAfterRemoval sub.2 ride2 errorTitle
    | none => a.executeAfterRemoval w1 ride errorTitle

/-- Restricted validation path decoupled from any ride
(RideEntranceExitPlaceAction::TrackPlaceQuery): capacity, ownership,
clearance with empty flags, underwater and maximum height only; the success
position takes the terrain surface height at the location. -/
def RideEntranceExitPlaceAction.TrackPlaceQuery (w : World) (loc : CoordsXYZ) (isExit : Bool) : Result :=
  let errorTitle := errorTitleFor isExit
  let locXY : CoordsXY := ⟨loc.x, loc.y⟩
  if !(MapCheckCapacityAndReorganise w locXY) then
    MakeResultError Status.NoFreeElements errorTitle
  else if !w.cheatsSandboxMode && !(map_is_location_owned w locXY loc.z) then
    MakeResultError Status.NotOwned errorTitle
  else
    let baseZ := loc.z
    let clearZ := baseZ + (if isExit then RideExitHeight else RideEntranceHeight)
    let clearance := map_can_construct_with_clear_at w locXY baseZ clearZ 0
    if !clearance.ok then
      MakeResultErrorMessageArgs Status.NoClearance errorTitle clearance.errorText clearance.formatArgs
    else if clearance.groundFlags &&& ELEMENT_IS_UNDERWATER ≠ 0 then
      MakeResultErrorMessage Status.Disallowed errorTitle STR_RIDE_CANT_BUILD_THIS_UNDERWATER
    else if MaxRideEntranceOrExitHeight < baseZ then
      MakeResultErrorMessage Status.Disallowed errorTitle STR_TOO_HIGH
    else
      { MakeResult with Position := some (locXY.ToTileCentre.withZ (tile_element_height w locXY)),
                        Expenditure := ExpenditureType.RideConstruction }

/-- Concrete station with no entrance and no exit, base height 16. -/
def testStation : RideStation :=
  { Entrance := none, Exit := none, Height := 2, LastPeepInQueue := 0, QueueLength := 0 }

/-- Concrete closed ride with the full complement of empty stations. -/
def testRide : Ride :=
  { status := RideStatus.Closed, lifecycle_flags := 0,
    stations := List.replicate MAX_STATIONS testStation }

/-- Concrete benign clearance verdict: constructible, dry ground. -/
def clearOk : ClearanceResult :=
  { ok := true, cost := 30, groundFlags := 0, errorText := 20, formatArgs := 21 }

/-- Concrete world: ride 0 present and closed, ample capacity, owned land,
permissive clearance, and a nested removal oracle that succeeds. -/
def testWorld : World :=
  { rides := fun i => if i = 0 then some testRide else none,
    capacityOK := fun _ => true,
    cheatsSandboxMode := false,
    locationValid := fun _ => true,
    locationOwned := fun _ _ => true,
    canConstruct := fun _ _ _ _ => clearOk,
    tileElementHeight := fun _ => 14,
    removeQueryResult := fun _ => MakeResult,
    removeExecResult := fun _ => MakeResult,
    elements := [], clearedForConstruction := [], peepsRemoved := [],
    litterRemoved := [], wallsRemoved := [], animations := [],
    hedgesRemoved := [], queueChainResets := 0, footpathConnected := [],
    queueChainUpdates := 0, invalidatedTiles := [] }

/-- Concrete parameter set: place an entrance at tile (64, 96), station 0. -/
def testParams : RideEntranceExitPlaceAction :=
  { loc := ⟨64, 96⟩, direction := 1, rideIndex := 0, stationNum := 0,
    isExit := false, flags := 0 }

/-- Concrete world whose target tile is at storage capacity. -/
def capFullWorld : World := { testWorld with capacityOK := fun _ => false }

/-- Concrete world whose ride 0 is operating (open). -/
def openRideWorld : World :=
  { testWorld with rides := fun i =>
      if i = 0 then some { testRide with status := RideStatus.Open } else none }

/-- Concrete ghost placement parameters. -/
def ghostParams : RideEntranceExitPlaceAction :=
  { testParams with flags := GAME_COMMAND_FLAG_GHOST }

/-- Concrete world whose ground is underwater at every clearance call. -/
def underwaterWorld : World :=
  { testWorld with canConstruct := fun _ _ _ _ =>
      { clearOk with groundFlags := ELEMENT_IS_UNDERWATER } }

/-- Concrete station that already has an entrance. -/
def occupiedStation : RideStation := { testStation with Entrance := some ⟨2, 3, 2, 1⟩ }

/-- Concrete closed ride whose stations all have an entrance already. -/
def occupiedRide : Ride :=
  { testRide with stations := List.replicate MAX_STATIONS occupiedStation }

/-- Concrete world with a pre-existing entrance and a nested removal oracle
that fails with Disallowed. -/
def occupiedFailWorld : World :=
  { testWorld with
      rides := fun i => if i = 0 then some occupiedRide else none,
      removeQueryResult := fun _ => MakeResultError Status.Disallowed 9,
      removeExecResult := fun _ => MakeResultError Status.Disallowed 9 }

/-- Updating a station entry leaves the height stored in that entry
unchanged whenever the update function preserves the height. -/
theorem Ride.getStation_setStation_Height (r : Ride) (i : Nat) (f : RideStation → RideStation)
    (hf : ∀ s, (f s).Height = s.Height) :
    ((r.setStation i f).getStation i).Height = (r.getStation i).Height := by
  unfold Ride.setStation Ride.getStation
  by_cases h : i < r.stations.length
  · simp only [List.getD_eq_getElem?_getD, List.getElem?_set_self h]
    simp [List.getD_eq_getElem?_getD, h, hf, List.getElem?_eq_getElem h]
  · have h2 : r.stations.length ≤ i := Nat.le_of_not_lt h
    rw [List.getD_eq_default _ _ (by simpa using h2), List.getD_eq_default _ _ h2]

/-- Ride table of the world after the modelled nested removal. -/
theorem applyEntranceExitRemoval_rides (w : World) (sub : RideEntranceExitRemoveAction) (i : Nat) :
    (applyEntranceExitRemoval w sub).rides i =
      if i = sub.rideIndex then
        (w.rides i).map (fun r => r.setStation sub.stationNum (fun s =>
          if sub.isExit then { s with Exit := none } else { s with Entrance := none }))
      else w.rides i := by
  simp [applyEntranceExitRemoval, World.updateRide]

/-- When ownership, clearance, underwater and height all pass, the tail
checks of Query produce the success result at the station base height. -/
theorem queryLocationChecks_pass (a : RideEntranceExitPlaceAction) (w : World) (ride : Ride) (et : Nat)
    (hown : a.ownershipFails w (a.stationBaseZ ride) = false)
    (hclear : (a.queryClearance w ride).ok = true)
    (hwater : (a.queryClearance w ride).groundFlags &&& ELEMENT_IS_UNDERWATER = 0)
    (hheight : a.stationBaseZ ride ≤ MaxRideEntranceOrExitHeight) :
    a.queryLocationChecks w ride et = a.successResult (a.stationBaseZ ride) := by
  unfold RideEntranceExitPlaceAction.queryLocationChecks
  dsimp only
  rw [hown]
  simp only [RideEntranceExitPlaceAction.queryClearance] at hclear hwater
  simp [hclear, hwater, Int.not_lt.mpr hheight]

/-- Inversion of a successful tail check: ownership, clearance, dry ground
and the height bound all held. -/
theorem queryLocationChecks_ok_inv (a : RideEntranceExitPlaceAction) (w : World) (ride : Ride) (et : Nat)
    (h : (a.queryLocationChecks w ride et).Error = Status.Ok) :
    a.ownershipFails w (a.stationBaseZ ride) = false ∧
    (a.queryClearance w ride).ok = true ∧
    (a.queryClearance w ride).groundFlags &&& ELEMENT_IS_UNDERWATER = 0 ∧
    a.stationBaseZ ride ≤ MaxRideEntranceOrExitHeight := by
  unfold RideEntranceExitPlaceAction.queryLocationChecks at h
  dsimp only at h
  split at h
  case isTrue hc => simp [MakeResultError, MakeResult] at h
  case isFalse hc =>
    split at h
    case isTrue hc2 => simp [MakeResultErrorMessageArgs, MakeResultErrorMessage, MakeResultError, MakeResult] at h
    case isFalse hc2 =>
      split at h
      case isTrue hc3 => simp [MakeResultErrorMessage, MakeResultError, MakeResult] at h
      case isFalse hc3 =>
        split at h
        case isTrue hc4 => simp [MakeResultErrorMessage, MakeResultError, MakeResult] at h
        case isFalse hc4 =>
          refine ⟨by simpa using hc, ?_, ?_, ?_⟩
          · simpa [RideEntranceExitPlaceAction.queryClearance] using hc2
          · simpa [RideEntranceExitPlaceAction.queryClearance] using hc3
          · exact Int.not_lt.mp hc4

/-- When steps 1 to 7 pass (and any nested removal probe succeeds), Query
runs exactly its tail checks and leaves the world unchanged. -/
theorem query_reaches_tail (a : RideEntranceExitPlaceAction) (w : World) (r : Ride)
    (hcap : MapCheckCapacityAndReorganise w a.loc = true)
    (hr : get_ride w a.rideIndex = some r)
    (hs : a.stationNum < MAX_STATIONS)
    (hstat : r.status = RideStatus.Closed ∨ r.status = RideStatus.Simulating)
    (hlife : r.lifecycle_flags &&& RIDE_LIFECYCLE_INDESTRUCTIBLE_TRACK = 0)
    (hrem : ∀ t, a.existingLocation r = some t →
      (GameActions.QueryNested w (a.removeActionFor t)).Error = Status.Ok) :
    a.Query w = (a.queryLocationChecks w r a.errorTitle, w) := by
  have hstat' : ¬(r.status ≠ RideStatus.Closed ∧ r.status ≠ RideStatus.Simulating) := by
    rcases hstat with h | h <;> simp [h]
  unfold RideEntranceExitPlaceAction.Query
  rw [hr]
  dsimp only
  rw [hcap]
  simp only [Bool.not_true, Bool.false_eq_true, if_false, Nat.not_le.mpr hs, if_neg hstat',
             hlife, ne_eq, not_true_eq_false, if_false, if_neg (Nat.not_le.mpr hs)]
  cases hloc : a.existingLocation r with
  | none => simp
  | some t => simp [hrem t hloc]

/-- Inversion of a successful Query: every leading validation step passed,
any nested removal probe succeeded, and the result is that of the tail
checks of the ride that was found. -/
theorem query_ok_inv (a : RideEntranceExitPlaceAction) (w : World)
    (h : (a.Query w).1.Error = Status.Ok) :
    MapCheckCapacityAndReorganise w a.loc = true ∧
    ∃ r, get_ride w a.rideIndex = some r ∧
      a.stationNum < MAX_STATIONS ∧
      (r.status = RideStatus.Closed ∨ r.status = RideStatus.Simulating) ∧
      r.lifecycle_flags &&& RIDE_LIFECYCLE_INDESTRUCTIBLE_TRACK = 0 ∧
      (∀ t, a.existingLocation r = some t →
        (GameActions.QueryNested w (a.removeActionFor t)).Error = Status.Ok) := by
  unfold RideEntranceExitPlaceAction.Query at h
  dsimp only at h
  split at h
  case isTrue hc => simp [MakeResultError, MakeResult] at h
  case isFalse hc =>
    have hcap : MapCheckCapacityAndReorganise w a.loc = true := by
      by_contra hx
      exact hc (by simp [Bool.not_eq_true] at hx ⊢; simp [hx])
    refine ⟨hcap, ?_⟩
    split at h
    case h_1 => simp [MakeResultError, MakeResult] at h
    case h_2 r hr =>
      split at h
      case isTrue => simp [MakeResultError, MakeResult] at h
      case isFalse hs =>
        split at h
        case isTrue => simp [MakeResultErrorMessage, MakeResultError, MakeResult] at h
        case isFalse hstat =>
          split at h
          case isTrue => simp [MakeResultErrorMessage, MakeResultError, MakeResult] at h
          case isFalse hlife =>
            refine ⟨r, hr, Nat.not_le.mp hs, ?_, by simpa using hlife, ?_⟩
            · rcases Decidable.not_and_iff_or_not.mp hstat with hx | hx
              · exact Or.inl (by simpa using hx)
              · exact Or.inr (by simpa using hx)
            · intro t ht
              rw [ht] at h
              dsimp only at h
              split at h
              case isTrue hq => exact absurd h hq
              case isFalse hq => simpa using hq
theorem Query_world_eq (a : RideEntranceExitPlaceAction) (w : World) :
    (a.Query w).2 = w := by
  unfold RideEntranceExitPlaceAction.Query
  dsimp only
  repeat' split
  all_goals rfl

/-- When the apply-mode clearance check passes, the tail of Execute returns
the success result at the station base height. -/
theorem executeAfterRemoval_clearOk (a : RideEntranceExitPlaceAction) (w : World) (ride : Ride) (et : Nat)
    (hclear : (a.executeClearance w ride).ok = true) :
    (a.executeAfterRemoval w ride et).1 = a.successResult (a.stationBaseZ ride) := by
  simp only [RideEntranceExitPlaceAction.executeClearance, map_can_construct_with_clear_at] at hclear
  unfold RideEntranceExitPlaceAction.executeAfterRemoval
  dsimp only
  by_cases hpw : (a.flags &&& GAME_COMMAND_FLAG_ALLOW_DURING_PAUSED = 0 ∧ a.flags &&& GAME_COMMAND_FLAG_GHOST = 0)
  · simp only [if_pos hpw, map_can_construct_with_clear_at]
    simp [hclear]
  · simp only [if_neg hpw, map_can_construct_with_clear_at]
    simp [hclear]

/-- The tail of Execute ends in success or in a clearance failure; in
particular it never reports InvalidParameters or NoFreeElements. -/
theorem executeAfterRemoval_error_cases (a : RideEntranceExitPlaceAction) (w : World) (ride : Ride) (et : Nat) :
    (a.executeAfterRemoval w ride et).1.Error = Status.Ok ∨
    (a.executeAfterRemoval w ride et).1.Error = Status.NoClearance := by
  unfold RideEntranceExitPlaceAction.executeAfterRemoval
  dsimp only
  split
  · split
    · right
      simp [MakeResultErrorMessageArgs, MakeResultErrorMessage, MakeResultError, MakeResult]
    · left
      simp [RideEntranceExitPlaceAction.successResult, MakeResult]
  · split
    · right
      simp [MakeResultErrorMessageArgs, MakeResultErrorMessage, MakeResultError, MakeResult]
    · left
      simp [RideEntranceExitPlaceAction.successResult, MakeResult]

/-- Under a ghost flag the tail of Execute evicts no agents, removes no
litter, no walls and no hedges. -/
theorem executeAfterRemoval_ghost_frame (a : RideEntranceExitPlaceAction) (w : World) (ride : Ride) (et : Nat)
    (hg : a.flags &&& GAME_COMMAND_FLAG_GHOST ≠ 0) :
    (a.executeAfterRemoval w ride et).2.clearedForConstruction = w.clearedForConstruction ∧
    (a.executeAfterRemoval w ride et).2.peepsRemoved = w.peepsRemoved ∧
    (a.executeAfterRemoval w ride et).2.litterRemoved = w.litterRemoved ∧
    (a.executeAfterRemoval w ride et).2.wallsRemoved = w.wallsRemoved ∧
    (a.executeAfterRemoval w ride et).2.hedgesRemoved = w.hedgesRemoved := by
  have h1 : ¬(a.flags &&& GAME_COMMAND_FLAG_ALLOW_DURING_PAUSED = 0 ∧ a.flags &&& GAME_COMMAND_FLAG_GHOST = 0) := by
    intro hx
    exact hg hx.2
  unfold RideEntranceExitPlaceAction.executeAfterRemoval
  dsimp only
  simp only [if_neg h1, if_neg hg]
  split
  · exact ⟨rfl, rfl, rfl, rfl, rfl⟩
  · split
    · exact ⟨rfl, rfl, rfl, rfl, rfl⟩
    · exact ⟨rfl, rfl, rfl, rfl, rfl⟩

/-- A successful tail of Execute appends exactly one element to storage,
its fields taken from the command, including the ghost marker. -/
theorem executeAfterRemoval_ok_element (a : RideEntranceExitPlaceAction) (w : World) (ride : Ride) (et : Nat)
    (h : (a.executeAfterRemoval w ride et).1.Error = Status.Ok) :
    (a.executeAfterRemoval w ride et).2.elements =
      w.elements ++
        [{ loc := a.loc, baseZ := a.stationBaseZ ride,
           clearanceZ := a.clearHeight (a.stationBaseZ ride),
           direction := a.direction &&& 3,
           entranceType := if a.isExit then ENTRANCE_TYPE_RIDE_EXIT else ENTRANCE_TYPE_RIDE_ENTRANCE,
           stationIndex := a.stationNum, rideIndex := a.rideIndex,
           ghost := a.flags &&& GAME_COMMAND_FLAG_GHOST != 0 }] := by
  unfold RideEntranceExitPlaceAction.executeAfterRemoval at h ⊢
  dsimp only at h ⊢
  split at h
  case isTrue hpw =>
    simp only [if_pos hpw] at h ⊢
    split at h
    case isTrue hc => simp [MakeResultErrorMessageArgs, MakeResultErrorMessage, MakeResultError, MakeResult] at h
    case isFalse hc =>
      simp only [if_neg hc]
      repeat' split
      all_goals simp [World.updateRide]
  case isFalse hpw =>
    simp only [if_neg hpw] at h ⊢
    split at h
    case isTrue hc => simp [MakeResultErrorMessageArgs, MakeResultErrorMessage, MakeResultError, MakeResult] at h
    case isFalse hc =>
      simp only [if_neg hc]
      repeat' split
      all_goals simp [World.updateRide]

/-- A successful tail of Execute registers exactly one animation for an
entrance placement and none for an exit placement, regardless of the ghost
flag. -/
theorem executeAfterRemoval_animations (a : RideEntranceExitPlaceAction) (w : World) (ride : Ride) (et : Nat)
    (h : (a.executeAfterRemoval w ride et).1.Error = Status.Ok) :
    (a.executeAfterRemoval w ride et).2.animations =
      (if a.isExit then w.animations
       else w.animations ++ [(MAP_ANIMATION_TYPE_RIDE_ENTRANCE, a.loc, a.stationBaseZ ride)]) := by
  unfold RideEntranceExitPlaceAction.executeAfterRemoval at h ⊢
  dsimp only at h ⊢
  split at h
  case isTrue hpw =>
    simp only [if_pos hpw] at h ⊢
    split at h
    case isTrue hc => simp [MakeResultErrorMessageArgs, MakeResultErrorMessage, MakeResultError, MakeResult] at h
    case isFalse hc =>
      simp only [if_neg hc]
      repeat' split
      all_goals simp [World.updateRide]
  case isFalse hpw =>
    simp only [if_neg hpw] at h ⊢
    split at h
    case isTrue hc => simp [MakeResultErrorMessageArgs, MakeResultErrorMessage, MakeResultError, MakeResult] at h
    case isFalse hc =>
      simp only [if_neg hc]
      repeat' split
      all_goals simp [World.updateRide]

/-- With a ride present and no pre-existing element of the requested kind,
Execute runs its tail directly after the optional agent eviction. -/
theorem Execute_no_preexisting (a : RideEntranceExitPlaceAction) (w : World) (r : Ride)
    (hr : get_ride w a.rideIndex = some r)
    (hloc : a.existingLocation r = none) :
    a.Execute w = a.executeAfterRemoval
      (if a.flags &&& GAME_COMMAND_FLAG_GHOST = 0 then
        { w with clearedForConstruction := w.clearedForConstruction ++ [a.rideIndex],
                 peepsRemoved := w.peepsRemoved ++ [a.rideIndex] }
       else w) r a.errorTitle := by
  unfold RideEntranceExitPlaceAction.Execute
  rw [hr]
  dsimp only
  rw [hloc]

/-- A tail of Execute that reports success passed the apply-mode clearance
check and returns the success result at the station base height. -/
theorem executeAfterRemoval_ok_result (a : RideEntranceExitPlaceAction) (w : World) (ride : Ride) (et : Nat)
    (h : (a.executeAfterRemoval w ride et).1.Error = Status.Ok) :
    (a.executeAfterRemoval w ride et).1 = a.successResult (a.stationBaseZ ride) := by
  unfold RideEntranceExitPlaceAction.executeAfterRemoval at h ⊢
  dsimp only at h ⊢
  split at h
  case isTrue hpw =>
    simp only [if_pos hpw] at h ⊢
    split at h
    case isTrue hc => simp [MakeResultErrorMessageArgs, MakeResultErrorMessage, MakeResultError, MakeResult] at h
    case isFalse hc => simp only [if_neg hc]
  case isFalse hpw =>
    simp only [if_neg hpw] at h ⊢
    split at h
    case isTrue hc => simp [MakeResultErrorMessageArgs, MakeResultErrorMessage, MakeResultError, MakeResult] at h
    case isFalse hc => simp only [if_neg hc]

/-- With a ride present, a pre-existing element of the requested kind and a
failing nested removal, Execute returns the removal verdict itself,
unchanged, having run nothing beyond the optional agent eviction. -/
theorem Execute_preexisting_fail (a : RideEntranceExitPlaceAction) (w : World) (r : Ride) (t : TileCoordsXYZD)
    (hr : get_ride w a.rideIndex = some r)
    (hloc : a.existingLocation r = some t)
    (hfail : (w.removeExecResult (a.removeActionFor t)).Error ≠ Status.Ok) :
    a.Execute w = (w.removeExecResult (a.removeActionFor t),
      if a.flags &&& GAME_COMMAND_FLAG_GHOST = 0 then
        { w with clearedForConstruction := w.clearedForConstruction ++ [a.rideIndex],
                 peepsRemoved := w.peepsRemoved ++ [a.rideIndex] }
      else w) := by
  unfold RideEntranceExitPlaceAction.Execute
  rw [hr]
  dsimp only
  rw [hloc]
  dsimp only
  unfold GameActions.ExecuteNested
  by_cases hgh : a.flags &&& GAME_COMMAND_FLAG_GHOST = 0
  · simp only [if_pos hgh]
    simp [hfail]
  · simp only [if_neg hgh]
    simp [hfail]

/-- Ride seen through the C++ ride pointer after a successful modelled
removal: the same ride with the station entry of that kind cleared. -/
theorem applyEntranceExitRemoval_getRide (w : World) (sub : RideEntranceExitRemoveAction) (r : Ride)
    (hr : w.rides sub.rideIndex = some r) :
    (get_ride (applyEntranceExitRemoval w sub) sub.rideIndex).getD r =
      r.setStation sub.stationNum (fun s =>
        if sub.isExit then { s with Exit := none } else { s with Entrance := none }) := by
  unfold get_ride
  rw [applyEntranceExitRemoval_rides]
  simp [hr]

/-- With a ride present, a pre-existing element of the requested kind and a
successful nested removal, Execute runs its tail on the world the removal
left behind, the C++ ride pointer seeing the cleared station entry. -/
theorem Execute_preexisting_ok (a : RideEntranceExitPlaceAction) (w : World) (r : Ride) (t : TileCoordsXYZD)
    (hr : get_ride w a.rideIndex = some r)
    (hloc : a.existingLocation r = some t)
    (hok : (w.removeExecResult (a.removeActionFor t)).Error = Status.Ok) :
    a.Execute w = a.executeAfterRemoval
      (applyEntranceExitRemoval
        (if a.flags &&& GAME_COMMAND_FLAG_GHOST = 0 then
          { w with clearedForConstruction := w.clearedForConstruction ++ [a.rideIndex],
                   peepsRemoved := w.peepsRemoved ++ [a.rideIndex] }
         else w)
        (a.removeActionFor t))
      (r.setStation a.stationNum (fun s =>
        if a.isExit then { s with Exit := none } else { s with Entrance := none }))
      a.errorTitle := by
  unfold RideEntranceExitPlaceAction.Execute
  rw [hr]
  dsimp only
  rw [hloc]
  dsimp only
  unfold GameActions.ExecuteNested
  by_cases hgh : a.flags &&& GAME_COMMAND_FLAG_GHOST = 0
  · simp only [if_pos hgh]
    rw [if_pos hok]
    dsimp only
    rw [if_neg (show ¬((w.removeExecResult (a.removeActionFor t)).Error ≠ Status.Ok) from by simp [hok])]
    congr 1
    exact applyEntranceExitRemoval_getRide _ (a.removeActionFor t) r hr
  · simp only [if_neg hgh]
    rw [if_pos hok]
    dsimp only
    rw [if_neg (show ¬((w.removeExecResult (a.removeActionFor t)).Error ≠ Status.Ok) from by simp [hok])]
    congr 1
    exact applyEntranceExitRemoval_getRide _ (a.removeActionFor t) r hr

/-- Log frame of the modelled nested removal: only element storage and the
station bookkeeping change. -/
theorem applyEntranceExitRemoval_logs (w : World) (sub : RideEntranceExitRemoveAction) :
    (applyEntranceExitRemoval w sub).clearedForConstruction = w.clearedForConstruction ∧
    (applyEntranceExitRemoval w sub).peepsRemoved = w.peepsRemoved ∧
    (applyEntranceExitRemoval w sub).litterRemoved = w.litterRemoved ∧
    (applyEntranceExitRemoval w sub).wallsRemoved = w.wallsRemoved ∧
    (applyEntranceExitRemoval w sub).hedgesRemoved = w.hedgesRemoved ∧
    (applyEntranceExitRemoval w sub).animations = w.animations := by
  exact ⟨rfl, rfl, rfl, rfl, rfl, rfl⟩

/-- Claim C3: Query leaves world state observably unchanged (it mutates
nothing, in particular the element count is unchanged), and a repeated
Query from the state Query leaves behind returns the identical Result. -/
theorem query_is_pure (a : RideEntranceExitPlaceAction) (w : World) :
    (a.Query w).2 = w ∧
    (a.Query w).2.elementCount = w.elementCount ∧
    (a.Query ((a.Query w).2)).1 = (a.Query w).1 := by
  refine ⟨Query_world_eq a w, ?_, ?_⟩
  · rw [Query_world_eq a w]
  · rw [Query_world_eq a w]

/-- Query rejects a station index at or above the station bound with
InvalidParameters whenever the capacity check passes, for every ride
lookup outcome. -/
theorem query_station_oob (a : RideEntranceExitPlaceAction) (w : World)
    (hcap : MapCheckCapacityAndReorganise w a.loc = true)
    (hs : MAX_STATIONS ≤ a.stationNum) :
    (a.Query w).1.Error = Status.InvalidParameters := by
  unfold RideEntranceExitPlaceAction.Query
  simp only [hcap, Bool.not_true, Bool.false_eq_true, if_false]
  cases hr : get_ride w a.rideIndex with
  | none => simp [MakeResultError, MakeResult]
  | some r => simp [hs, MakeResultError, MakeResult]

/-- Claim C6: whenever the tile capacity check passes (a world-state
condition, not a parameter), a station index at or above the station bound
makes Query fail with InvalidParameters, independent of every other
parameter. -/
theorem station_index_validated (a : RideEntranceExitPlaceAction) (w : World)
    (hcap : MapCheckCapacityAndReorganise w a.loc = true)
    (hs : MAX_STATIONS ≤ a.stationNum) :
    (a.Query w).1.Error = Status.InvalidParameters :=
  query_station_oob a w hcap hs

/-- Witness for claim C6 at a concrete world and parameter set. -/
theorem station_index_validated_witness :
    ({ testParams with stationNum := 7 }.Query testWorld).1.Error = Status.InvalidParameters :=
  station_index_validated { testParams with stationNum := 7 } testWorld (by decide) (by decide)

/-- The tail of Execute never reports NoFreeElements. -/
theorem executeAfterRemoval_not_nofree (a : RideEntranceExitPlaceAction) (w : World) (ride : Ride) (et : Nat) :
    (a.executeAfterRemoval w ride et).1.Error ≠ Status.NoFreeElements := by
  rcases executeAfterRemoval_error_cases a w ride et with h | h <;> simp [h]

/-- The tail of Execute never reports InvalidParameters. -/
theorem executeAfterRemoval_not_invalid (a : RideEntranceExitPlaceAction) (w : World) (ride : Ride) (et : Nat) :
    (a.executeAfterRemoval w ride et).1.Error ≠ Status.InvalidParameters := by
  rcases executeAfterRemoval_error_cases a w ride et with h | h <;> simp [h]

/-- Claim C1 counterexample: with the target tile at storage capacity,
Query fails at step 2 with NoFreeElements while Execute, which does not
repeat the capacity check, succeeds, so Execute does not repeat validation
steps 1 to 4 identically with the same failures. -/
theorem c1_counterexample :
    (testParams.Query capFullWorld).1.Error = Status.NoFreeElements ∧
    (testParams.Execute capFullWorld).1.Error = Status.Ok := by
  exact ⟨by decide, by decide⟩

/-- Claim C1 amended: Execute repeats step 1 (error-title selection) and
step 3 (ride resolution) identically, a missing ride producing the very
InvalidParameters Result Query produces; the capacity check of step 2 is
not repeated (Execute itself never reports NoFreeElements: only a nested
removal verdict could carry that status). -/
theorem execute_repeats_title_and_ride_resolution (a : RideEntranceExitPlaceAction) (w : World) :
    ((∀ sub, (w.removeExecResult sub).Error ≠ Status.NoFreeElements) →
      (a.Execute w).1.Error ≠ Status.NoFreeElements) ∧
    (MapCheckCapacityAndReorganise w a.loc = true →
     get_ride w a.rideIndex = none →
      (a.Execute w).1 = (a.Query w).1 ∧ (a.Execute w).1.Error = Status.InvalidParameters) := by
  constructor
  · intro hsub
    unfold RideEntranceExitPlaceAction.Execute
    dsimp only
    cases hrr : get_ride w a.rideIndex with
    | none => simp [MakeResultError, MakeResult]
    | some r =>
      dsimp only
      cases hloc : a.existingLocation r with
      | none =>
        exact executeAfterRemoval_not_nofree a _ _ a.errorTitle
      | some t =>
        by_cases hgh : a.flags &&& GAME_COMMAND_FLAG_GHOST = 0
        · simp only [if_pos hgh]
          unfold GameActions.ExecuteNested
          dsimp only
          by_cases hre : (w.removeExecResult (a.removeActionFor t)).Error = Status.Ok
          · rw [if_pos hre]
            dsimp only
            rw [if_neg (by simp [hre])]
            exact executeAfterRemoval_not_nofree a _ _ a.errorTitle
          · rw [if_neg hre]
            dsimp only
            rw [if_pos hre]
            exact hsub (a.removeActionFor t)
        · simp only [if_neg hgh]
          unfold GameActions.ExecuteNested
          dsimp only
          by_cases hre : (w.removeExecResult (a.removeActionFor t)).Error = Status.Ok
          · rw [if_pos hre]
            dsimp only
            rw [if_neg (by simp [hre])]
            exact executeAfterRemoval_not_nofree a _ _ a.errorTitle
          · rw [if_neg hre]
            dsimp only
            rw [if_pos hre]
            exact hsub (a.removeActionFor t)
  · intro hcap hrnone
    unfold RideEntranceExitPlaceAction.Execute RideEntranceExitPlaceAction.Query
    rw [hrnone]
    dsimp only
    simp [hcap, MakeResultError, MakeResult]

/-- Witness for the amended claim C1 at a concrete world with an unknown
ride id. -/
theorem execute_repeats_title_and_ride_resolution_witness :
    (({ testParams with rideIndex := 5 } : RideEntranceExitPlaceAction).Execute testWorld).1 =
      (({ testParams with rideIndex := 5 } : RideEntranceExitPlaceAction).Query testWorld).1 ∧
    (({ testParams with rideIndex := 5 } : RideEntranceExitPlaceAction).Execute testWorld).1.Error =
      Status.InvalidParameters :=
  (execute_repeats_title_and_ride_resolution { testParams with rideIndex := 5 } testWorld).2
    (by decide) (by decide)

/-- Claim C2 counterexample: station 0 of the open ride has no pre-existing
entrance, yet Query returns NotClosed while an immediately following
Execute (no intervening state change) returns Ok with a position set, so
the two Results agree neither in status nor in position. -/
theorem c2_counterexample :
    testParams.existingLocation { testRide with status := RideStatus.Open } = none ∧
    (testParams.Query openRideWorld).1.Error = Status.NotClosed ∧
    (testParams.Execute openRideWorld).1.Error = Status.Ok ∧
    (testParams.Query openRideWorld).1.Position ≠ (testParams.Execute openRideWorld).1.Position := by
  exact ⟨by decide, by decide, by decide, by decide⟩

/-- Claim C2 amended: for a fixed world, ride and station with no
pre-existing element of the requested kind, when Query succeeds and the
clearance collaborator also passes in apply mode, an immediately following
Execute (no intervening state change) returns the same status and the same
position as Query. -/
theorem execute_matches_successful_query (a : RideEntranceExitPlaceAction) (w : World) (r : Ride)
    (hr : get_ride w a.rideIndex = some r)
    (hloc : a.existingLocation r = none)
    (hq : (a.Query w).1.Error = Status.Ok)
    (hclear : (a.executeClearance w r).ok = true) :
    (a.Execute w).1.Error = (a.Query w).1.Error ∧
    (a.Execute w).1.Position = (a.Query w).1.Position := by
  obtain ⟨hcap, r2, hr2, hs, hstat, hlife, hrem⟩ := query_ok_inv a w hq
  rw [hr] at hr2
  injection hr2 with hr2e
  subst hr2e
  have htail := query_reaches_tail a w r hcap hr hs hstat hlife hrem
  have hq2 : (a.queryLocationChecks w r a.errorTitle).Error = Status.Ok := by
    rw [htail] at hq
    exact hq
  obtain ⟨hown, hqc, hwater, hheight⟩ := queryLocationChecks_ok_inv a w r a.errorTitle hq2
  have hqpass := queryLocationChecks_pass a w r a.errorTitle hown hqc hwater hheight
  have hquery : (a.Query w).1 = a.successResult (a.stationBaseZ r) := by
    rw [htail]
    exact hqpass
  rw [Execute_no_preexisting a w r hr hloc]
  by_cases hgh : a.flags &&& GAME_COMMAND_FLAG_GHOST = 0
  · rw [if_pos hgh]
    have hex : (a.executeAfterRemoval
        { w with clearedForConstruction := w.clearedForConstruction ++ [a.rideIndex],
                 peepsRemoved := w.peepsRemoved ++ [a.rideIndex] } r a.errorTitle).1 =
        a.successResult (a.stationBaseZ r) :=
      executeAfterRemoval_clearOk a _ r a.errorTitle hclear
    rw [hex, hquery]
    exact ⟨rfl, rfl⟩
  · rw [if_neg hgh]
    have hex : (a.executeAfterRemoval w r a.errorTitle).1 = a.successResult (a.stationBaseZ r) :=
      executeAfterRemoval_clearOk a w r a.errorTitle hclear
    rw [hex, hquery]
    exact ⟨rfl, rfl⟩

/-- Witness for the amended claim C2 at a concrete world where every check
passes. -/
theorem execute_matches_successful_query_witness :
    (testParams.Execute testWorld).1.Error = (testParams.Query testWorld).1.Error ∧
    (testParams.Execute testWorld).1.Position = (testParams.Query testWorld).1.Position :=
  execute_matches_successful_query testParams testWorld testRide
    (by decide) (by decide) (by decide) (by decide)

/-- Claim C4 counterexample: a ghost entrance placement that reaches
insertion still registers an animation, so it is not the case that none of
the listed effects (which include animation registration) occur. -/
theorem c4_counterexample :
    ghostParams.flags &&& GAME_COMMAND_FLAG_GHOST ≠ 0 ∧
    (ghostParams.Execute testWorld).1.Error = Status.Ok ∧
    (ghostParams.Execute testWorld).2.animations.length = testWorld.animations.length + 1 := by
  exact ⟨by decide, by decide, by decide⟩

/-- Claim C4 amended: a ghost-flagged Execute evicts no agents (no
clear-for-construction, no peep removal), removes no litter, no walls and
no hedges, and when it reaches the insertion step the element it stores
carries the ghost marker; animation registration, however, is not
suppressed: a successful ghost entrance placement still registers exactly
one animation. -/
theorem ghost_execute_frame (a : RideEntranceExitPlaceAction) (w : World)
    (hg : a.flags &&& GAME_COMMAND_FLAG_GHOST ≠ 0) :
    (a.Execute w).2.clearedForConstruction = w.clearedForConstruction ∧
    (a.Execute w).2.peepsRemoved = w.peepsRemoved ∧
    (a.Execute w).2.litterRemoved = w.litterRemoved ∧
    (a.Execute w).2.wallsRemoved = w.wallsRemoved ∧
    (a.Execute w).2.hedgesRemoved = w.hedgesRemoved ∧
    ((a.Execute w).1.Error = Status.Ok →
      ∃ e : EntranceElement, (a.Execute w).2.elements.getLast? = some e ∧ e.ghost = true) ∧
    (a.isExit = false → (a.Execute w).1.Error = Status.Ok →
      (a.Execute w).2.animations.length = w.animations.length + 1) := by
  have hghost : (a.flags &&& GAME_COMMAND_FLAG_GHOST != 0) = true := by
    simpa [bne_iff_ne] using hg
  cases hrr : get_ride w a.rideIndex with
  | none =>
    have hE : a.Execute w = (MakeResultError Status.InvalidParameters a.errorTitle, w) := by
      unfold RideEntranceExitPlaceAction.Execute
      rw [hrr]
    rw [hE]
    refine ⟨rfl, rfl, rfl, rfl, rfl, ?_, ?_⟩
    · intro h
      exact absurd h (by simp [MakeResultError, MakeResult])
    · intro _ h
      exact absurd h (by simp [MakeResultError, MakeResult])
  | some r =>
    cases hloc : a.existingLocation r with
    | none =>
      have hE := Execute_no_preexisting a w r hrr hloc
      rw [if_neg hg] at hE
      rw [hE]
      obtain ⟨f1, f2, f3, f4, f5⟩ := executeAfterRemoval_ghost_frame a w r a.errorTitle hg
      refine ⟨f1, f2, f3, f4, f5, ?_, ?_⟩
      · intro h
        have he := executeAfterRemoval_ok_element a w r a.errorTitle h
        rw [he]
        refine ⟨_, List.getLast?_concat _, ?_⟩
        exact hghost
      · intro hx h
        have ha := executeAfterRemoval_animations a w r a.errorTitle h
        rw [ha, if_neg (by simp [hx])]
        simp
    | some t =>
      by_cases hre : (w.removeExecResult (a.removeActionFor t)).Error = Status.Ok
      · have hE := Execute_preexisting_ok a w r t hrr hloc hre
        rw [if_neg hg] at hE
        rw [hE]
        obtain ⟨l1, l2, l3, l4, l5, l6⟩ := applyEntranceExitRemoval_logs w (a.removeActionFor t)
        obtain ⟨f1, f2, f3, f4, f5⟩ := executeAfterRemoval_ghost_frame a
          (applyEntranceExitRemoval w (a.removeActionFor t))
          (r.setStation a.stationNum (fun s =>
            if a.isExit then { s with Exit := none } else { s with Entrance := none }))
          a.errorTitle hg
        refine ⟨by rw [f1, l1], by rw [f2, l2], by rw [f3, l3], by rw [f4, l4], by rw [f5, l5], ?_, ?_⟩
        · intro h
          have he := executeAfterRemoval_ok_element a
            (applyEntranceExitRemoval w (a.removeActionFor t))
            (r.setStation a.stationNum (fun s =>
              if a.isExit then { s with Exit := none } else { s with Entrance := none }))
            a.errorTitle h
          rw [he]
          refine ⟨_, List.getLast?_concat _, ?_⟩
          exact hghost
        · intro hx h
          have ha := executeAfterRemoval_animations a
            (applyEntranceExitRemoval w (a.removeActionFor t))
            (r.setStation a.stationNum (fun s =>
              if a.isExit then { s with Exit := none } else { s with Entrance := none }))
            a.errorTitle h
          rw [ha, if_neg (by simp [hx]), List.length_append, l6]
          rfl
      · have hE := Execute_preexisting_fail a w r t hrr hloc hre
        rw [if_neg hg] at hE
        rw [hE]
        refine ⟨rfl, rfl, rfl, rfl, rfl, ?_, ?_⟩
        · intro h
          exact absurd h hre
        · intro _ h
          exact absurd h hre

/-- Witness for the amended claim C4: a concrete ghost entrance placement
mutates none of the effect logs and stores a ghost-marked element. -/
theorem ghost_execute_frame_witness :
    (ghostParams.Execute testWorld).2.clearedForConstruction = testWorld.clearedForConstruction ∧
    (ghostParams.Execute testWorld).2.peepsRemoved = testWorld.peepsRemoved ∧
    (ghostParams.Execute testWorld).2.litterRemoved = testWorld.litterRemoved ∧
    (ghostParams.Execute testWorld).2.wallsRemoved = testWorld.wallsRemoved ∧
    (ghostParams.Execute testWorld).2.hedgesRemoved = testWorld.hedgesRemoved ∧
    ((ghostParams.Execute testWorld).1.Error = Status.Ok →
      ∃ e : EntranceElement, (ghostParams.Execute testWorld).2.elements.getLast? = some e ∧ e.ghost = true) ∧
    (ghostParams.isExit = false → (ghostParams.Execute testWorld).1.Error = Status.Ok →
      (ghostParams.Execute testWorld).2.animations.length = testWorld.animations.length + 1) :=
  ghost_execute_frame ghostParams testWorld (by decide)

/-- Claim C5: when the targeted station already has an element of the
requested kind, both Query and Execute build the nested Remove sub-command
with the parent's own permission-flag set copied onto it and run its Query
(respectively Execute); a non-Ok sub-command verdict is returned exactly,
unchanged, with no further steps run (Query also leaves the world
untouched). -/
theorem nested_remove_failure_propagates (a : RideEntranceExitPlaceAction) (w : World) (r : Ride) (t : TileCoordsXYZD)
    (hr : get_ride w a.rideIndex = some r)
    (hloc : a.existingLocation r = some t) :
    (a.removeActionFor t).flags = a.flags ∧
    (MapCheckCapacityAndReorganise w a.loc = true →
     a.stationNum < MAX_STATIONS →
     (r.status = RideStatus.Closed ∨ r.status = RideStatus.Simulating) →
     r.lifecycle_flags &&& RIDE_LIFECYCLE_INDESTRUCTIBLE_TRACK = 0 →
     (GameActions.QueryNested w (a.removeActionFor t)).Error ≠ Status.Ok →
      a.Query w = (GameActions.QueryNested w (a.removeActionFor t), w)) ∧
    ((w.removeExecResult (a.removeActionFor t)).Error ≠ Status.Ok →
      (a.Execute w).1 = w.removeExecResult (a.removeActionFor t)) := by
  refine ⟨rfl, ?_, ?_⟩
  · intro hcap hs hstat hlife hfail
    have hstat' : ¬(r.status ≠ RideStatus.Closed ∧ r.status ≠ RideStatus.Simulating) := by
      rcases hstat with h | h <;> simp [h]
    unfold RideEntranceExitPlaceAction.Query
    rw [hr]
    dsimp only
    rw [hcap]
    simp only [Bool.not_true, Bool.false_eq_true, if_false, if_neg (Nat.not_le.mpr hs),
               if_neg hstat', hlife, ne_eq, not_true_eq_false, if_false]
    rw [hloc]
    dsimp only
    rw [if_pos hfail]
  · intro hfail
    rw [Execute_preexisting_fail a w r t hr hloc hfail]

/-- Witness for claim C5 at a concrete world whose station 0 already has an
entrance and whose removal oracle fails with Disallowed. -/
theorem nested_remove_failure_propagates_witness :
    testParams.Query occupiedFailWorld =
      (GameActions.QueryNested occupiedFailWorld (testParams.removeActionFor ⟨2, 3, 2, 1⟩), occupiedFailWorld) ∧
    (testParams.Execute occupiedFailWorld).1 =
      occupiedFailWorld.removeExecResult (testParams.removeActionFor ⟨2, 3, 2, 1⟩) := by
  have h := nested_remove_failure_propagates testParams occupiedFailWorld occupiedRide ⟨2, 3, 2, 1⟩
    (by decide) (by decide)
  exact ⟨h.2.1 (by decide) (by decide) (by decide) (by decide) (by decide), h.2.2 (by decide)⟩

/-- Claim C7: on the Query path where all earlier steps passed, a clearance
verdict marking the ground underwater makes the result Disallowed with the
underwater message; the check is reached only after the clearance check
passed, a clearance failure at the same location yielding NoClearance
instead. -/
theorem underwater_disallowed_after_clearance (a : RideEntranceExitPlaceAction) (w : World) (r : Ride)
    (hcap : MapCheckCapacityAndReorganise w a.loc = true)
    (hr : get_ride w a.rideIndex = some r)
    (hs : a.stationNum < MAX_STATIONS)
    (hstat : r.status = RideStatus.Closed ∨ r.status = RideStatus.Simulating)
    (hlife : r.lifecycle_flags &&& RIDE_LIFECYCLE_INDESTRUCTIBLE_TRACK = 0)
    (hloc : a.existingLocation r = none)
    (hown : a.ownershipFails w (a.stationBaseZ r) = false) :
    ((a.queryClearance w r).ok = false →
      (a.Query w).1 = MakeResultErrorMessageArgs Status.NoClearance a.errorTitle
        (a.queryClearance w r).errorText (a.queryClearance w r).formatArgs) ∧
    ((a.queryClearance w r).ok = true →
     (a.queryClearance w r).groundFlags &&& ELEMENT_IS_UNDERWATER ≠ 0 →
      (a.Query w).1 =
        MakeResultErrorMessage Status.Disallowed a.errorTitle STR_RIDE_CANT_BUILD_THIS_UNDERWATER) := by
  have hrem : ∀ t, a.existingLocation r = some t →
      (GameActions.QueryNested w (a.removeActionFor t)).Error = Status.Ok := by
    intro t ht
    rw [hloc] at ht
    cases ht
  have htail := query_reaches_tail a w r hcap hr hs hstat hlife hrem
  rw [htail]
  dsimp only
  unfold RideEntranceExitPlaceAction.queryLocationChecks
  dsimp only
  rw [hown]
  simp only [Bool.false_eq_true, if_false]
  constructor
  · intro hc
    simp only [RideEntranceExitPlaceAction.queryClearance] at hc
    simp [hc, RideEntranceExitPlaceAction.queryClearance]
  · intro hc hwet
    simp only [RideEntranceExitPlaceAction.queryClearance] at hc hwet
    simp [hc, hwet]

/-- Witness for claim C7 at a concrete world whose clearance collaborator
reports an underwater surface. -/
theorem underwater_disallowed_after_clearance_witness :
    (testParams.Query underwaterWorld).1 =
      MakeResultErrorMessage Status.Disallowed testParams.errorTitle STR_RIDE_CANT_BUILD_THIS_UNDERWATER :=
  (underwater_disallowed_after_clearance testParams underwaterWorld testRide
      (by decide) (by decide) (by decide) (Or.inl (by decide)) (by decide) (by decide) (by decide)).2
    (by decide) (by decide)

/-- Claim C8: Execute reads the station entry ride->stations[_stationNum]
without any bound check: with a full stations array and a station index at
or beyond MAX_STATIONS the access is out of bounds, yet Execute proceeds
past it, never returning InvalidParameters for the station index, whereas
Query (whose capacity check passes) does establish the precondition and
fails with InvalidParameters. -/
theorem execute_unchecked_station_access (a : RideEntranceExitPlaceAction) (w : World) (r : Ride)
    (hr : get_ride w a.rideIndex = some r)
    (hlen : r.stations.length = MAX_STATIONS)
    (hs : MAX_STATIONS ≤ a.stationNum) :
    ¬ a.stationNum < r.stations.length ∧
    (a.Execute w).1.Error ≠ Status.InvalidParameters ∧
    (MapCheckCapacityAndReorganise w a.loc = true →
      (a.Query w).1.Error = Status.InvalidParameters) := by
  have hnb : ¬ a.stationNum < r.stations.length := by omega
  have hloc : a.existingLocation r = none := by
    unfold RideEntranceExitPlaceAction.existingLocation ride_get_exit_location
      ride_get_entrance_location Ride.getStation
    rw [List.getD_eq_default _ _ (by omega)]
    simp [defaultStation]
  refine ⟨hnb, ?_, fun hcap => query_station_oob a w hcap hs⟩
  rw [Execute_no_preexisting a w r hr hloc]
  exact executeAfterRemoval_not_invalid a _ r a.errorTitle

/-- Witness for claim C8: station index 4 on a four-station ride. -/
theorem execute_unchecked_station_access_witness :
    ¬ ({ testParams with stationNum := 4 } : RideEntranceExitPlaceAction).stationNum < testRide.stations.length ∧
    (({ testParams with stationNum := 4 } : RideEntranceExitPlaceAction).Execute testWorld).1.Error ≠
      Status.InvalidParameters ∧
    (MapCheckCapacityAndReorganise testWorld ({ testParams with stationNum := 4 } : RideEntranceExitPlaceAction).loc = true →
      (({ testParams with stationNum := 4 } : RideEntranceExitPlaceAction).Query testWorld).1.Error =
        Status.InvalidParameters) :=
  execute_unchecked_station_access { testParams with stationNum := 4 } testWorld testRide
    (by decide) (by decide) (by decide)

/-- Claim C9: successful Query, Execute and TrackPlaceQuery results carry
no cost: the cost value computed by the clearance collaborator is discarded
and the optional cost field of the Result is never set from it. -/
theorem results_carry_no_cost (a : RideEntranceExitPlaceAction) (w : World) (loc : CoordsXYZ) (isExit : Bool) :
    ((a.Query w).1.Error = Status.Ok → (a.Query w).1.Cost = none) ∧
    ((a.Execute w).1.Error = Status.Ok → (a.Execute w).1.Cost = none) ∧
    ((RideEntranceExitPlaceAction.TrackPlaceQuery w loc isExit).Error = Status.Ok →
      (RideEntranceExitPlaceAction.TrackPlaceQuery w loc isExit).Cost = none) := by
  refine ⟨?_, ?_, ?_⟩
  · unfold RideEntranceExitPlaceAction.Query RideEntranceExitPlaceAction.queryLocationChecks
    dsimp only
    repeat' split
    all_goals intro h
    all_goals simp_all [MakeResult, MakeResultError, MakeResultErrorMessage, MakeResultErrorMessageArgs,
      RideEntranceExitPlaceAction.successResult, GameActions.QueryNested]
  · intro h
    cases hrr : get_ride w a.rideIndex with
    | none =>
      have hE : a.Execute w = (MakeResultError Status.InvalidParameters a.errorTitle, w) := by
        unfold RideEntranceExitPlaceAction.Execute
        rw [hrr]
      rw [hE] at h
      simp [MakeResultError, MakeResult] at h
    | some r =>
      cases hloc : a.existingLocation r with
      | none =>
        rw [Execute_no_preexisting a w r hrr hloc] at h ⊢
        rw [executeAfterRemoval_ok_result a _ r a.errorTitle h]
        rfl
      | some t =>
        by_cases hre : (w.removeExecResult (a.removeActionFor t)).Error = Status.Ok
        · rw [Execute_preexisting_ok a w r t hrr hloc hre] at h ⊢
          rw [executeAfterRemoval_ok_result a _ _ a.errorTitle h]
          rfl
        · rw [Execute_preexisting_fail a w r t hrr hloc hre] at h
          exact absurd h hre
  · unfold RideEntranceExitPlaceAction.TrackPlaceQuery
    dsimp only
    repeat' split
    all_goals intro h
    all_goals simp_all [MakeResult, MakeResultError, MakeResultErrorMessage, MakeResultErrorMessageArgs,
      RideEntranceExitPlaceAction.successResult]

/-- Witness for claim C9 at concrete successful calls. -/
theorem results_carry_no_cost_witness :
    (testParams.Query testWorld).1.Cost = none ∧
    (testParams.Execute testWorld).1.Cost = none ∧
    (RideEntranceExitPlaceAction.TrackPlaceQuery testWorld ⟨64, 96, 32⟩ false).Cost = none := by
  have h := results_carry_no_cost testParams testWorld ⟨64, 96, 32⟩ false
  exact ⟨h.1 (by decide), h.2.1 (by decide), h.2.2 (by decide)⟩

/-- Claim C10: a successful TrackPlaceQuery reports the terrain surface
height at the location rather than the requested height of the location
itself, while successful Query and Execute report the station base height;
the requested height feeds only the validation checks. -/
theorem success_position_heights (a : RideEntranceExitPlaceAction) (w : World) (r : Ride) (loc : CoordsXYZ) (isExit : Bool)
    (hr : get_ride w a.rideIndex = some r) :
    ((RideEntranceExitPlaceAction.TrackPlaceQuery w loc isExit).Error = Status.Ok →
      (RideEntranceExitPlaceAction.TrackPlaceQuery w loc isExit).Position =
        some ((CoordsXY.ToTileCentre ⟨loc.x, loc.y⟩).withZ (tile_element_height w ⟨loc.x, loc.y⟩))) ∧
    ((a.Query w).1.Error = Status.Ok →
      (a.Query w).1.Position = some (a.loc.ToTileCentre.withZ (a.stationBaseZ r))) ∧
    ((a.Execute w).1.Error = Status.Ok →
      (a.Execute w).1.Position = some (a.loc.ToTileCentre.withZ (a.stationBaseZ r))) := by
  refine ⟨?_, ?_, ?_⟩
  · unfold RideEntranceExitPlaceAction.TrackPlaceQuery
    dsimp only
    repeat' split
    all_goals intro h
    all_goals simp_all [MakeResult, MakeResultError, MakeResultErrorMessage, MakeResultErrorMessageArgs,
      RideEntranceExitPlaceAction.successResult]
  · intro h
    obtain ⟨hcap, r2, hr2, hs, hstat, hlife, hrem⟩ := query_ok_inv a w h
    rw [hr] at hr2
    injection hr2 with hre
    subst hre
    have htail := query_reaches_tail a w r hcap hr hs hstat hlife hrem
    rw [htail] at h ⊢
    dsimp only at h ⊢
    obtain ⟨hown, hqc, hwater, hheight⟩ := queryLocationChecks_ok_inv a w r a.errorTitle h
    rw [queryLocationChecks_pass a w r a.errorTitle hown hqc hwater hheight]
    rfl
  · intro h
    cases hloc : a.existingLocation r with
    | none =>
      rw [Execute_no_preexisting a w r hr hloc] at h ⊢
      rw [executeAfterRemoval_ok_result a _ r a.errorTitle h]
      rfl
    | some t =>
      by_cases hre2 : (w.removeExecResult (a.removeActionFor t)).Error = Status.Ok
      · rw [Execute_preexisting_ok a w r t hr hloc hre2] at h ⊢
        rw [executeAfterRemoval_ok_result a _ _ a.errorTitle h]
        have hz : a.stationBaseZ (r.setStation a.stationNum (fun s =>
            if a.isExit then { s with Exit := none } else { s with Entrance := none })) =
            a.stationBaseZ r := by
          unfold RideEntranceExitPlaceAction.stationBaseZ RideStation.GetBaseZ
          rw [Ride.getStation_setStation_Height]
          intro s
          split <;> rfl
        rw [hz]
        rfl
      · rw [Execute_preexisting_fail a w r t hr hloc hre2] at h
        exact absurd h hre2

/-- Witness for claim C10 at a concrete world where the terrain height 14
differs from the requested height 32 and from the station base height 16. -/
theorem success_position_heights_witness :
    (RideEntranceExitPlaceAction.TrackPlaceQuery testWorld ⟨64, 96, 32⟩ false).Position =
      some ((CoordsXY.ToTileCentre ⟨64, 96⟩).withZ (tile_element_height testWorld ⟨64, 96⟩)) ∧
    (testParams.Query testWorld).1.Position =
      some (testParams.loc.ToTileCentre.withZ (testParams.stationBaseZ testRide)) ∧
    (testParams.Execute testWorld).1.Position =
      some (testParams.loc.ToTileCentre.withZ (testParams.stationBaseZ testRide)) := by
  have h := success_position_heights testParams testWorld testRide ⟨64, 96, 32⟩ false (by decide)
  exact ⟨h.1 (by decide), h.2.1 (by decide), h.2.2 (by decide)⟩
